import Mathlib

/-!
Verification of the NSE option-chain HTTP gateway (src/main.py).

The program is a small Flask application: an authentication decorator
checks the Authorization header against a process-wide secret, and a
single protected route reads a symbol query parameter, uppercases it,
calls an external provider, and maps the outcome to a JSON response with
an HTTP status code.  The embedding below models requests, JSON bodies,
Python truthiness, the string operations the code uses, and each handler
as a pure function.  The option-chain handler additionally returns the
list of symbols passed to the provider, so that claims about the provider
being (or not being) invoked can be stated.
-/

namespace NSE

/-- JSON-like values, used for response bodies and provider payloads. -/
inductive Json where
  | null
  | bool (b : Bool)
  | str (s : String)
  | num (n : Int)
  | arr (elems : List Json)
  | obj (fields : List (String × Json))

/-- Python truthiness of a JSON-like value: None, False, empty string,
zero and empty containers are falsy.  Models the test at line 83 of
src/main.py. -/
def Json.truthy : Json → Bool
  | .null => false
  | .bool b => b
  | .str s => decide (s ≠ "")
  | .num n => decide (n ≠ 0)
  | .arr elems => !elems.isEmpty
  | .obj fields => !fields.isEmpty

/-- An HTTP response: a status code and a JSON object body (association
list of key/value pairs, in emission order). -/
structure Response where
  status : Nat
  body : List (String × Json)

/-- Whether the response body has an entry with key k. -/
def Response.hasKey (r : Response) (k : String) : Bool :=
  r.body.any (fun kv => kv.1 == k)

/-- The value stored under key k in the response body, if any. -/
def Response.getVal (r : Response) (k : String) : Option Json :=
  (r.body.find? (fun kv => kv.1 == k)).map (fun kv => kv.2)

/-- An inbound HTTP request, restricted to the two pieces of data the
program reads: the Authorization header (absent or a string) and the
symbol query parameter (absent or a string). -/
structure Request where
  authHeader : Option String
  symbolParam : Option String

/-- Outcome of the external provider call nse.option_chain(symbol):
either a payload value, or a raised exception carrying a message. -/
inductive ProviderOutcome where
  | ok (payload : Json)
  | exn (msg : String)

/-- Python s.startswith(p): the first p-many characters of s are p.
Models line 37 of src/main.py. -/
def pyStartsWith (s p : String) : Bool :=
  decide (s.data.take p.data.length = p.data)

/-- Python slicing s[n:]: drop the first n characters.  Models line 38
of src/main.py. -/
def pyDrop (s : String) (n : Nat) : String :=
  ⟨s.data.drop n⟩

/-- ASCII uppercasing of one character, the case mapping Python's
str.upper applies to the characters that can occur in exchange symbols. -/
def upperChar (c : Char) : Char :=
  if 97 ≤ c.toNat ∧ c.toNat ≤ 122 then Char.ofNat (c.toNat - 32) else c

/-- Python symbol.upper(): uppercase every character.  Models line 75 of
src/main.py. -/
def pyUpper (s : String) : String :=
  ⟨s.data.map upperChar⟩

/-- Lines 18-21 of src/main.py: the process refuses to start when the
API_KEY environment variable is unset or empty (Python falsiness). -/
def startup_ok (apiKey : Option String) : Bool :=
  match apiKey with
  | none => false
  | some k => decide (k ≠ "")

/-- Response of lines 31-34: Authorization header absent (or falsy). -/
def authRequiredResp : Response :=
  ⟨401, [("error", .str "Authorization header is required"),
         ("message", .str "Please provide Authorization header with your API key")]⟩

/-- Response of lines 43-46: provided key does not match. -/
def invalidKeyResp : Response :=
  ⟨401, [("error", .str "Invalid API key"),
         ("message", .str "The provided API key is not valid")]⟩

/-- Response of lines 69-72: symbol query parameter absent or empty. -/
def missingSymbolResp : Response :=
  ⟨400, [("error", .str "Symbol parameter is required"),
         ("message", .str "Please provide a symbol as query parameter")]⟩

/-- Response of lines 84-87: provider returned a falsy payload. -/
def noDataResp (symbol : String) : Response :=
  ⟨404, [("error", .str "No data found"),
         ("message", .str ("No option chain data found for symbol: " ++ symbol))]⟩

/-- Response of lines 97-100: provider raised an exception. -/
def nseErrorResp (msg : String) : Response :=
  ⟨500, [("error", .str "NSE API error"),
         ("message", .str ("Failed to fetch data from NSE: " ++ msg))]⟩

/-- Response of lines 89-93: success. -/
def successResp (symbol : String) (data : Json) : Response :=
  ⟨200, [("success", .bool true),
         ("symbol", .str symbol),
         ("data", data)]⟩

/-- Response of lines 104-107: the outer except clause. -/
def internalErrorResp : Response :=
  ⟨500, [("error", .str "Internal server error"),
         ("message", .str "An unexpected error occurred")]⟩

/-- Response of lines 55-58: the health check body. -/
def healthResp : Response :=
  ⟨200, [("status", .str "healthy"),
         ("message", .str "NSE Option Chain API is running")]⟩

/-- The credential check of the require_api_key decorator, lines 28-46 of
src/main.py: given the configured secret and the Authorization header,
either reject early with a response (some r) or let the wrapped handler
run (none).  A present-but-empty header is falsy in Python and is treated
like an absent one. -/
def api_key_check (apiKey : String) (authHeader : Option String) : Option Response :=
  match authHeader with
  | none => some authRequiredResp
  | some h =>
    if h = "" then some authRequiredResp
    else
      let provided := if pyStartsWith h "Bearer " then pyDrop h 7 else h
      if provided = apiKey then none else some invalidKeyResp

/-- The require_api_key decorator, lines 23-50: run the credential check
and either return its rejection (with no provider activity) or invoke the
wrapped handler. -/
def require_api_key (apiKey : String) (f : Request → Response × List String)
    (req : Request) : Response × List String :=
  match api_key_check apiKey req.authHeader with
  | some r => (r, [])
  | none => f req

/-- The get_option_chain handler, lines 62-107 of src/main.py, already
past the authentication gate.  The second component of the result is the
list of symbols passed to the provider (empty when the provider is not
called). -/
def get_option_chain (provider : String → ProviderOutcome) (req : Request) :
    Response × List String :=
  match req.symbolParam with
  | none => (missingSymbolResp, [])
  | some s =>
    if s = "" then (missingSymbolResp, [])
    else
      let symbol := pyUpper s
      match provider symbol with
      | .exn msg => (nseErrorResp msg, [symbol])
      | .ok data =>
        if data.truthy = false then (noDataResp symbol, [symbol])
        else (successResp symbol data, [symbol])

/-- The full /option-chain route: the decorator wrapped around the
handler (lines 60-62). -/
def option_chain_route (apiKey : String) (provider : String → ProviderOutcome)
    (req : Request) : Response × List String :=
  require_api_key apiKey (get_option_chain provider) req

/-- The /health route, lines 52-58: ignores the request entirely. -/
def health_check (_req : Request) : Response :=
  healthResp

/-- The outer try/except of get_option_chain (lines 64 and 102-107): a
body outcome that either produced a response or raised with some message
is mapped to that response, or to the fixed internal-error response.  In
the embedding the handler body is total, so this wrapper records what the
except clause does with any escaped exception. -/
def outer_try (body : Except String Response) : Response :=
  match body with
  | .ok r => r
  | .error _ => internalErrorResp

/-! Concrete fixtures used by the witness theorems. -/

/-- A provider that returns a non-empty payload for every symbol. -/
def providerGood : String → ProviderOutcome :=
  fun _ => .ok (Json.obj [("strikes", Json.arr [Json.num 100, Json.num 200])])

/-- A provider that returns a falsy payload for every symbol. -/
def providerEmpty : String → ProviderOutcome :=
  fun _ => .ok Json.null

/-- A provider that raises for every symbol. -/
def providerBoom : String → ProviderOutcome :=
  fun _ => .exn "timeout"

/-! ## Helper lemmas -/

theorem toNat_ofNat_of_lt {n : Nat} (h : n < 55296) : (Char.ofNat n).toNat = n := by
  have hv : n.isValidChar := Or.inl h
  rw [Char.ofNat, dif_pos hv]
  rfl

theorem toNat_upperChar (c : Char) :
    (upperChar c).toNat = if 97 ≤ c.toNat ∧ c.toNat ≤ 122 then c.toNat - 32 else c.toNat := by
  unfold upperChar
  split
  case isTrue h => exact toNat_ofNat_of_lt (by omega)
  case isFalse h => rfl

theorem upperChar_eq_self (c : Char) (h : ¬ (97 ≤ c.toNat ∧ c.toNat ≤ 122)) :
    upperChar c = c := by
  unfold upperChar
  rw [if_neg h]

theorem upperChar_idem (c : Char) : upperChar (upperChar c) = upperChar c := by
  apply upperChar_eq_self
  rw [toNat_upperChar]
  by_cases h : 97 ≤ c.toNat ∧ c.toNat ≤ 122
  · rw [if_pos h]; omega
  · rw [if_neg h]; exact h

theorem pyUpper_idem (s : String) : pyUpper (pyUpper s) = pyUpper s := by
  apply String.ext
  show (s.data.map upperChar).map upperChar = s.data.map upperChar
  rw [List.map_map]
  induction s.data with
  | nil => rfl
  | cons c l ih => simp [Function.comp, upperChar_idem, ih]

theorem bearer_data_length : ("Bearer " : String).data.length = 7 := rfl

theorem pyStartsWith_append (s : String) :
    pyStartsWith ("Bearer " ++ s) "Bearer " = true := by
  unfold pyStartsWith
  rw [decide_eq_true_eq, String.data_append, bearer_data_length, ← bearer_data_length,
    List.take_left]

theorem eq_bearer_append_of_startsWith {h : String}
    (hs : pyStartsWith h "Bearer " = true) : h = "Bearer " ++ pyDrop h 7 := by
  unfold pyStartsWith at hs
  rw [decide_eq_true_eq, bearer_data_length] at hs
  apply String.ext
  rw [String.data_append]
  show h.data = "Bearer ".data ++ h.data.drop 7
  rw [← hs]
  exact (List.take_append_drop 7 h.data).symm

theorem pyDrop_bearer_append (s : String) : pyDrop ("Bearer " ++ s) 7 = s := by
  apply String.ext
  show (("Bearer " ++ s)).data.drop 7 = s.data
  rw [String.data_append, ← bearer_data_length, List.drop_left]

theorem bearer_append_ne_empty (s : String) : "Bearer " ++ s ≠ "" := by
  intro heq
  have hd := congrArg String.data heq
  rw [String.data_append] at hd
  simp at hd

theorem api_key_check_none_iff (secret h : String) (hne : secret ≠ "")
    (hs : pyStartsWith secret "Bearer " = false) :
    api_key_check secret (some h) = none ↔ (h = secret ∨ h = "Bearer " ++ secret) := by
  unfold api_key_check
  dsimp only
  by_cases h0 : h = ""
  · subst h0
    rw [if_pos rfl]
    constructor
    · intro hx; exact Option.noConfusion hx
    · rintro (h1 | h1)
      · exact absurd h1.symm hne
      · exact absurd h1.symm (bearer_append_ne_empty secret)
  · rw [if_neg h0]
    by_cases h1 : pyStartsWith h "Bearer " = true
    · simp only [h1, if_true]
      by_cases h2 : pyDrop h 7 = secret
      · rw [if_pos h2]
        constructor
        · intro _
          right
          rw [eq_bearer_append_of_startsWith h1, h2]
        · intro _; rfl
      · rw [if_neg h2]
        constructor
        · intro hx; exact Option.noConfusion hx
        · rintro (h3 | h3)
          · subst h3; rw [h1] at hs; exact Bool.noConfusion hs
          · exact absurd (h3 ▸ pyDrop_bearer_append secret) h2
    · have h1f : pyStartsWith h "Bearer " = false := by
        cases hx : pyStartsWith h "Bearer " with
        | true => exact absurd hx h1
        | false => rfl
      rw [h1f]
      show (if h = secret then (none : Option Response) else some invalidKeyResp) = none ↔
        h = secret ∨ h = "Bearer " ++ secret
      by_cases h2 : h = secret
      · rw [if_pos h2]
        constructor
        · intro _; exact Or.inl h2
        · intro _; rfl
      · rw [if_neg h2]
        constructor
        · intro hx; exact Option.noConfusion hx
        · rintro (h3 | h3)
          · exact absurd h3 h2
          · rw [h3] at h1f
            rw [pyStartsWith_append secret] at h1f
            exact Bool.noConfusion h1f

theorem api_key_check_some_status {secret : String} {ah : Option String} {r : Response}
    (hr : api_key_check secret ah = some r) : r.status = 401 := by
  unfold api_key_check at hr
  cases ah with
  | none =>
    injection hr with hh
    subst hh
    exact rfl
  | some h =>
    dsimp only at hr
    by_cases h0 : h = ""
    · rw [if_pos h0] at hr
      injection hr with hh
      subst hh
      exact rfl
    · rw [if_neg h0] at hr
      by_cases h2 : (if pyStartsWith h "Bearer " then pyDrop h 7 else h) = secret
      · rw [if_pos h2] at hr; exact Option.noConfusion hr
      · rw [if_neg h2] at hr
        injection hr with hh
        subst hh
        exact rfl

theorem route_auth_ok {secret : String} {req : Request} (provider : String → ProviderOutcome)
    (hauth : api_key_check secret req.authHeader = none) :
    option_chain_route secret provider req = get_option_chain provider req := by
  unfold option_chain_route require_api_key
  rw [hauth]

theorem gop_missing {req : Request} (provider : String → ProviderOutcome)
    (hsym : req.symbolParam = none) :
    get_option_chain provider req = (missingSymbolResp, []) := by
  unfold get_option_chain
  rw [hsym]

theorem gop_empty {req : Request} (provider : String → ProviderOutcome)
    (hsym : req.symbolParam = some "") :
    get_option_chain provider req = (missingSymbolResp, []) := by
  unfold get_option_chain
  rw [hsym]
  dsimp only
  rw [if_pos rfl]

theorem gop_provider_called {req : Request} {s : String} (provider : String → ProviderOutcome)
    (hsym : req.symbolParam = some s) (hs : s ≠ "") :
    get_option_chain provider req =
      (match provider (pyUpper s) with
       | .exn msg => (nseErrorResp msg, [pyUpper s])
       | .ok data =>
         if data.truthy = false then (noDataResp (pyUpper s), [pyUpper s])
         else (successResp (pyUpper s) data, [pyUpper s])) := by
  unfold get_option_chain
  rw [hsym]
  dsimp only
  rw [if_neg hs]

theorem gop_success {req : Request} {s : String} {d : Json} (provider : String → ProviderOutcome)
    (hsym : req.symbolParam = some s) (hs : s ≠ "")
    (hp : provider (pyUpper s) = ProviderOutcome.ok d) (ht : d.truthy = true) :
    get_option_chain provider req = (successResp (pyUpper s) d, [pyUpper s]) := by
  rw [gop_provider_called provider hsym hs, hp]
  dsimp only
  rw [ht, if_neg (fun hx => Bool.noConfusion hx)]

theorem gop_nodata {req : Request} {s : String} {d : Json} (provider : String → ProviderOutcome)
    (hsym : req.symbolParam = some s) (hs : s ≠ "")
    (hp : provider (pyUpper s) = ProviderOutcome.ok d) (ht : d.truthy = false) :
    get_option_chain provider req = (noDataResp (pyUpper s), [pyUpper s]) := by
  rw [gop_provider_called provider hsym hs, hp]
  dsimp only
  rw [ht, if_pos rfl]

theorem gop_exn {req : Request} {s : String} {m : String} (provider : String → ProviderOutcome)
    (hsym : req.symbolParam = some s) (hs : s ≠ "")
    (hp : provider (pyUpper s) = ProviderOutcome.exn m) :
    get_option_chain provider req = (nseErrorResp m, [pyUpper s]) := by
  rw [gop_provider_called provider hsym hs, hp]

/-! ## Claim theorems -/

/-- C1 counterexample: the claimed acceptance rule does not hold for
every possible secret.  With the configured secret "Bearer X", a request
whose Authorization header is exactly the raw secret "Bearer X" is
rejected with 401 (the gate strips the "Bearer " prefix and compares the
remainder "X" against "Bearer X"), although the claim says the raw secret
form must be accepted. -/
theorem C1_counterexample_raw_bearer_secret :
    api_key_check "Bearer X" (some "Bearer X") = some invalidKeyResp ∧
    invalidKeyResp.status = 401 ∧
    (option_chain_route "Bearer X" providerGood
      (Request.mk (some "Bearer X") (some "INFY"))).1.status = 401 :=
  ⟨rfl, rfl, rfl⟩

/-- C1 (amended): for every configured secret that is nonempty (which the
startup check enforces) and does not itself begin with "Bearer ", and for
every request carrying an Authorization header, the wrapped handler is
allowed to proceed iff the header equals the raw secret or equals
"Bearer " followed by the secret; any other header value is rejected with
status 401. -/
theorem C1_auth_gate_amended (secret hdr : String) (f : Request → Response × List String)
    (req : Request)
    (hok : startup_ok (some secret) = true)
    (hs : pyStartsWith secret "Bearer " = false)
    (hh : req.authHeader = some hdr) :
    (api_key_check secret (some hdr) = none ↔ (hdr = secret ∨ hdr = "Bearer " ++ secret)) ∧
    (api_key_check secret (some hdr) = none → require_api_key secret f req = f req) ∧
    (∀ r : Response, api_key_check secret (some hdr) = some r →
      require_api_key secret f req = (r, []) ∧ r.status = 401) := by
  have hne : secret ≠ "" := by
    unfold startup_ok at hok
    exact of_decide_eq_true hok
  refine ⟨api_key_check_none_iff secret hdr hne hs, ?_, ?_⟩
  · intro hn
    unfold require_api_key
    rw [hh, hn]
  · intro r hr
    refine ⟨?_, api_key_check_some_status hr⟩
    unfold require_api_key
    rw [hh, hr]

/-- C1 witness: the amended gate rule at the secret "SECRET123" and the
header "Bearer SECRET123". -/
theorem C1_auth_gate_amended_witness :
    startup_ok (some "SECRET123") = true ∧
    pyStartsWith "SECRET123" "Bearer " = false ∧
    ((api_key_check "SECRET123" (some "Bearer SECRET123") = none ↔
        ("Bearer SECRET123" = "SECRET123" ∨ "Bearer SECRET123" = "Bearer " ++ "SECRET123")) ∧
      (api_key_check "SECRET123" (some "Bearer SECRET123") = none →
        require_api_key "SECRET123" (fun _ : Request => (healthResp, ([] : List String)))
          (Request.mk (some "Bearer SECRET123") (some "INFY")) =
        (fun _ : Request => (healthResp, ([] : List String))) (Request.mk (some "Bearer SECRET123") (some "INFY"))) ∧
      (∀ r : Response, api_key_check "SECRET123" (some "Bearer SECRET123") = some r →
        require_api_key "SECRET123" (fun _ : Request => (healthResp, ([] : List String)))
          (Request.mk (some "Bearer SECRET123") (some "INFY")) = (r, []) ∧ r.status = 401)) :=
  ⟨rfl, rfl,
    C1_auth_gate_amended "SECRET123" "Bearer SECRET123" (fun _ : Request => (healthResp, ([] : List String)))
      (Request.mk (some "Bearer SECRET123") (some "INFY")) rfl rfl rfl⟩

/-- C2: with a valid credential, a nonempty symbol parameter (so the
provider call happens) and a provider returning a truthy payload, the
response is 200 with success true, the uppercased symbol, and the
payload verbatim. -/
theorem C2_success_response (secret : String) (provider : String → ProviderOutcome)
    (req : Request) (s : String) (d : Json)
    (hauth : api_key_check secret req.authHeader = none)
    (hsym : req.symbolParam = some s) (hs : s ≠ "")
    (hp : provider (pyUpper s) = ProviderOutcome.ok d) (ht : d.truthy = true) :
    (option_chain_route secret provider req).1 =
      ⟨200, [("success", Json.bool true), ("symbol", Json.str (pyUpper s)),
             ("data", d)]⟩ := by
  rw [route_auth_ok provider hauth, gop_success provider hsym hs hp ht]
  exact rfl

/-- C2 witness: secret "SECRET123", raw-form credential, symbol "infy",
provider returning a non-empty object. -/
theorem C2_success_response_witness :
    api_key_check "SECRET123" (Request.mk (some "SECRET123") (some "infy")).authHeader = none ∧
    (Request.mk (some "SECRET123") (some "infy")).symbolParam = some "infy" ∧
    "infy" ≠ "" ∧
    providerGood (pyUpper "infy") =
      ProviderOutcome.ok (Json.obj [("strikes", Json.arr [Json.num 100, Json.num 200])]) ∧
    (Json.obj [("strikes", Json.arr [Json.num 100, Json.num 200])]).truthy = true ∧
    (option_chain_route "SECRET123" providerGood
        (Request.mk (some "SECRET123") (some "infy"))).1 =
      ⟨200, [("success", Json.bool true), ("symbol", Json.str (pyUpper "infy")),
             ("data", Json.obj [("strikes", Json.arr [Json.num 100, Json.num 200])])]⟩ :=
  ⟨rfl, rfl, by decide, rfl, rfl,
    C2_success_response "SECRET123" providerGood
      (Request.mk (some "SECRET123") (some "infy")) "infy"
      (Json.obj [("strikes", Json.arr [Json.num 100, Json.num 200])])
      rfl rfl (by decide) rfl rfl⟩

/-- C3: a request to /option-chain with no Authorization header is
rejected with 401, the body has an "error" and a "message" key, the
wrapped handler is never invoked (the gate returns the fixed rejection
for any wrapped handler), and the provider is never called (empty call
trace). -/
theorem C3_absent_header_rejected (secret : String) (provider : String → ProviderOutcome)
    (req : Request) (hh : req.authHeader = none) :
    (∀ f : Request → Response × List String,
      require_api_key secret f req = (authRequiredResp, [])) ∧
    (option_chain_route secret provider req).1.status = 401 ∧
    (option_chain_route secret provider req).1.hasKey "error" = true ∧
    (option_chain_route secret provider req).1.hasKey "message" = true ∧
    (option_chain_route secret provider req).2 = [] := by
  have hbase : ∀ f : Request → Response × List String,
      require_api_key secret f req = (authRequiredResp, []) := by
    intro f
    unfold require_api_key
    rw [hh]
    exact rfl
  have hr : option_chain_route secret provider req = (authRequiredResp, []) := hbase _
  rw [hr]
  exact ⟨hbase, rfl, rfl, rfl, rfl⟩

/-- C3 witness: a request with no Authorization header at all. -/
theorem C3_absent_header_rejected_witness :
    (Request.mk none (some "INFY")).authHeader = none ∧
    ((∀ f : NSE.Request → Response × List String,
        require_api_key "SECRET123" f (Request.mk none (some "INFY")) =
          (authRequiredResp, [])) ∧
      (option_chain_route "SECRET123" providerGood (Request.mk none (some "INFY"))).1.status = 401 ∧
      (option_chain_route "SECRET123" providerGood
        (Request.mk none (some "INFY"))).1.hasKey "error" = true ∧
      (option_chain_route "SECRET123" providerGood
        (Request.mk none (some "INFY"))).1.hasKey "message" = true ∧
      (option_chain_route "SECRET123" providerGood (Request.mk none (some "INFY"))).2 = []) :=
  ⟨rfl, C3_absent_header_rejected "SECRET123" providerGood (Request.mk none (some "INFY")) rfl⟩

/-- C4: with a valid credential and an absent symbol query parameter, the
response is the fixed 400 bad-request body and the provider is never
called (empty call trace). -/
theorem C4_missing_symbol (secret : String) (provider : String → ProviderOutcome)
    (req : Request)
    (hauth : api_key_check secret req.authHeader = none)
    (hsym : req.symbolParam = none) :
    option_chain_route secret provider req = (missingSymbolResp, []) ∧
    missingSymbolResp.status = 400 := by
  refine ⟨?_, rfl⟩
  rw [route_auth_ok provider hauth, gop_missing provider hsym]

/-- C4 witness: valid raw credential, no symbol parameter. -/
theorem C4_missing_symbol_witness :
    api_key_check "SECRET123" (Request.mk (some "SECRET123") none).authHeader = none ∧
    (Request.mk (some "SECRET123") none).symbolParam = none ∧
    (option_chain_route "SECRET123" providerGood (Request.mk (some "SECRET123") none) =
        (missingSymbolResp, []) ∧
      missingSymbolResp.status = 400) :=
  ⟨rfl, rfl,
    C4_missing_symbol "SECRET123" providerGood (Request.mk (some "SECRET123") none) rfl rfl⟩

/-- C5: for an authenticated request with nonempty symbol s, the provider
is called exactly once with the uppercased symbol (the call trace is
exactly that one symbol); when the provider returns a truthy payload the
response body echoes the uppercased symbol under the "symbol" key; and
uppercasing is idempotent on every string. -/
theorem C5_uppercase_normalization (secret : String) (provider : String → ProviderOutcome)
    (req : Request) (s : String)
    (hauth : api_key_check secret req.authHeader = none)
    (hsym : req.symbolParam = some s) (hs : s ≠ "") :
    (option_chain_route secret provider req).2 = [pyUpper s] ∧
    (∀ d : Json, provider (pyUpper s) = ProviderOutcome.ok d → d.truthy = true →
      (option_chain_route secret provider req).1.getVal "symbol" =
        some (Json.str (pyUpper s))) ∧
    (∀ t : String, pyUpper (pyUpper t) = pyUpper t) := by
  refine ⟨?_, ?_, fun t => pyUpper_idem t⟩
  · rw [route_auth_ok provider hauth, gop_provider_called provider hsym hs]
    cases hp : provider (pyUpper s) with
    | ok d =>
      dsimp only
      by_cases ht : d.truthy = false
      · rw [ht, if_pos rfl]
      · have ht2 : d.truthy = true := by
          cases hx : d.truthy with
          | true => rfl
          | false => exact absurd hx ht
        rw [ht2, if_neg (fun hx => Bool.noConfusion hx)]
    | exn m => rfl
  · intro d hp ht
    rw [route_auth_ok provider hauth, gop_success provider hsym hs hp ht]
    rfl

/-- C5 witness: lowercase symbol "infy"; also checks that the
normalization computes "INFY" on it. -/
theorem C5_uppercase_normalization_witness :
    api_key_check "SECRET123" (Request.mk (some "SECRET123") (some "infy")).authHeader = none ∧
    (Request.mk (some "SECRET123") (some "infy")).symbolParam = some "infy" ∧
    "infy" ≠ "" ∧
    pyUpper "infy" = "INFY" ∧
    ((option_chain_route "SECRET123" providerGood
        (Request.mk (some "SECRET123") (some "infy"))).2 = [pyUpper "infy"] ∧
      (∀ d : Json, providerGood (pyUpper "infy") = ProviderOutcome.ok d → d.truthy = true →
        (option_chain_route "SECRET123" providerGood
          (Request.mk (some "SECRET123") (some "infy"))).1.getVal "symbol" =
            some (Json.str (pyUpper "infy"))) ∧
      (∀ t : String, pyUpper (pyUpper t) = pyUpper t)) :=
  ⟨rfl, rfl, by decide, rfl,
    C5_uppercase_normalization "SECRET123" providerGood
      (Request.mk (some "SECRET123") (some "infy")) "infy" rfl rfl (by decide)⟩

/-- C6: with a valid credential and a nonempty symbol, a falsy provider
payload yields a 404 response whose body has an "error" key and whose
message names the (uppercased) symbol. -/
theorem C6_empty_payload_not_found (secret : String) (provider : String → ProviderOutcome)
    (req : Request) (s : String) (d : Json)
    (hauth : api_key_check secret req.authHeader = none)
    (hsym : req.symbolParam = some s) (hs : s ≠ "")
    (hp : provider (pyUpper s) = ProviderOutcome.ok d) (ht : d.truthy = false) :
    (option_chain_route secret provider req).1.status = 404 ∧
    (option_chain_route secret provider req).1.hasKey "error" = true ∧
    (option_chain_route secret provider req).1.getVal "message" =
      some (Json.str ("No option chain data found for symbol: " ++ pyUpper s)) ∧
    (pyUpper s).data <:+: ("No option chain data found for symbol: " ++ pyUpper s).data := by
  have hr : option_chain_route secret provider req = (noDataResp (pyUpper s), [pyUpper s]) := by
    rw [route_auth_ok provider hauth, gop_nodata provider hsym hs hp ht]
  rw [hr]
  refine ⟨rfl, rfl, rfl, ?_⟩
  rw [String.data_append]
  exact (List.suffix_append _ _).isInfix

/-- C6 witness: symbol "FAKE", provider returning null. -/
theorem C6_empty_payload_not_found_witness :
    api_key_check "SECRET123" (Request.mk (some "SECRET123") (some "FAKE")).authHeader = none ∧
    (Request.mk (some "SECRET123") (some "FAKE")).symbolParam = some "FAKE" ∧
    "FAKE" ≠ "" ∧
    providerEmpty (pyUpper "FAKE") = ProviderOutcome.ok Json.null ∧
    Json.null.truthy = false ∧
    ((option_chain_route "SECRET123" providerEmpty
        (Request.mk (some "SECRET123") (some "FAKE"))).1.status = 404 ∧
      (option_chain_route "SECRET123" providerEmpty
        (Request.mk (some "SECRET123") (some "FAKE"))).1.hasKey "error" = true ∧
      (option_chain_route "SECRET123" providerEmpty
        (Request.mk (some "SECRET123") (some "FAKE"))).1.getVal "message" =
          some (Json.str ("No option chain data found for symbol: " ++ pyUpper "FAKE")) ∧
      (pyUpper "FAKE").data <:+:
        ("No option chain data found for symbol: " ++ pyUpper "FAKE").data) :=
  ⟨rfl, rfl, by decide, rfl, rfl,
    C6_empty_payload_not_found "SECRET123" providerEmpty
      (Request.mk (some "SECRET123") (some "FAKE")) "FAKE" Json.null
      rfl rfl (by decide) rfl rfl⟩

/-- C7: with a valid credential and a nonempty symbol, a provider
exception with message m yields a 500 response whose "message" value is
the fixed prefix followed by m, so the underlying error message is
contained in it. -/
theorem C7_provider_error_passthrough (secret : String) (provider : String → ProviderOutcome)
    (req : Request) (s m : String)
    (hauth : api_key_check secret req.authHeader = none)
    (hsym : req.symbolParam = some s) (hs : s ≠ "")
    (hp : provider (pyUpper s) = ProviderOutcome.exn m) :
    (option_chain_route secret provider req).1.status = 500 ∧
    (option_chain_route secret provider req).1.getVal "message" =
      some (Json.str ("Failed to fetch data from NSE: " ++ m)) ∧
    m.data <:+: ("Failed to fetch data from NSE: " ++ m).data := by
  have hr : option_chain_route secret provider req = (nseErrorResp m, [pyUpper s]) := by
    rw [route_auth_ok provider hauth, gop_exn provider hsym hs hp]
  rw [hr]
  refine ⟨rfl, rfl, ?_⟩
  rw [String.data_append]
  exact (List.suffix_append _ _).isInfix

/-- C7 witness: provider raising with message "timeout". -/
theorem C7_provider_error_passthrough_witness :
    api_key_check "SECRET123" (Request.mk (some "SECRET123") (some "INFY")).authHeader = none ∧
    (Request.mk (some "SECRET123") (some "INFY")).symbolParam = some "INFY" ∧
    "INFY" ≠ "" ∧
    providerBoom (pyUpper "INFY") = ProviderOutcome.exn "timeout" ∧
    ((option_chain_route "SECRET123" providerBoom
        (Request.mk (some "SECRET123") (some "INFY"))).1.status = 500 ∧
      (option_chain_route "SECRET123" providerBoom
        (Request.mk (some "SECRET123") (some "INFY"))).1.getVal "message" =
          some (Json.str ("Failed to fetch data from NSE: " ++ "timeout")) ∧
      ("timeout" : String).data <:+:
        ("Failed to fetch data from NSE: " ++ "timeout").data) :=
  ⟨rfl, rfl, by decide, rfl,
    C7_provider_error_passthrough "SECRET123" providerBoom
      (Request.mk (some "SECRET123") (some "INFY")) "INFY" "timeout"
      rfl rfl (by decide) rfl⟩

/-- C8: the /health route returns the fixed 200 healthy payload for every
request, whatever its headers. -/
theorem C8_health_always_ok (req : Request) :
    health_check req =
      ⟨200, [("status", Json.str "healthy"),
             ("message", Json.str "NSE Option Chain API is running")]⟩ :=
  rfl

/-- C9: any failure escaping the handler body outside the provider call
is mapped by the outer except clause to the fixed generic 500 response;
the response does not depend on the error message, so no internals leak,
and the wrapper always produces a response. -/
theorem C9_outer_catch_generic (m : String) :
    outer_try (Except.error m) = internalErrorResp ∧
    internalErrorResp.status = 500 ∧
    internalErrorResp.body =
      [("error", Json.str "Internal server error"),
       ("message", Json.str "An unexpected error occurred")] ∧
    (∀ m2 : String, outer_try (Except.error m) = outer_try (Except.error m2)) :=
  ⟨rfl, rfl, rfl, fun _ => rfl⟩

/-- C10: with a valid credential, a present-but-empty symbol parameter is
treated exactly like an absent one: the same fixed 400 response, and the
provider is never called (empty call trace). -/
theorem C10_empty_symbol_like_missing (secret : String) (provider : String → ProviderOutcome)
    (req : Request)
    (hauth : api_key_check secret req.authHeader = none)
    (hsym : req.symbolParam = some "") :
    option_chain_route secret provider req = (missingSymbolResp, []) ∧
    (∀ req2 : Request, api_key_check secret req2.authHeader = none →
      req2.symbolParam = none →
      option_chain_route secret provider req2 = option_chain_route secret provider req) ∧
    missingSymbolResp.status = 400 := by
  have hr : option_chain_route secret provider req = (missingSymbolResp, []) := by
    rw [route_auth_ok provider hauth, gop_empty provider hsym]
  refine ⟨hr, ?_, rfl⟩
  intro req2 hauth2 hsym2
  rw [hr, route_auth_ok provider hauth2, gop_missing provider hsym2]

/-- C10 witness: valid credential and an empty symbol parameter. -/
theorem C10_empty_symbol_like_missing_witness :
    api_key_check "SECRET123" (Request.mk (some "SECRET123") (some "")).authHeader = none ∧
    (Request.mk (some "SECRET123") (some "")).symbolParam = some "" ∧
    (option_chain_route "SECRET123" providerGood (Request.mk (some "SECRET123") (some "")) =
        (missingSymbolResp, []) ∧
      (∀ req2 : Request, api_key_check "SECRET123" req2.authHeader = none →
        req2.symbolParam = none →
        option_chain_route "SECRET123" providerGood req2 =
          option_chain_route "SECRET123" providerGood
            (Request.mk (some "SECRET123") (some ""))) ∧
      missingSymbolResp.status = 400) :=
  ⟨rfl, rfl,
    C10_empty_symbol_like_missing "SECRET123" providerGood
      (Request.mk (some "SECRET123") (some "")) rfl rfl⟩

end NSE
